import Mathlib

/-!
Shallow embedding of `land_detector::LandDetector::Run` from
`src/modules/land_detector/LandDetector.cpp` (PX4 firmware).

The per-cycle driver is modelled as a pure function `Run : State → Input → State × CycleOut`.
Machine integers are `Nat` with explicit `% 2 ^ 64` where `uint64_t` overflow matters;
the two persisted `int32` parameter slots hold 32-bit patterns (`Nat < 2 ^ 32`), and the
`static_cast<uint64_t>(int32)` at reconstruction is modelled by explicit sign extension.
Floats (`alt_max`, `_get_max_altitude()`) are modelled over `ℚ`, with `Option ℚ` for the
`INFINITY` sentinel (`none` = `+∞`); the IEEE behaviour of
`fabsf(a - b) > FLT_EPSILON` at infinities is mirrored case by case.
The debounced outputs of the five external `Hysteresis` gates and of the vehicle-specific
raw-state provider are cycle inputs, as are the uORB subscription updates.  All calls to
`hrt_absolute_time()` within one cycle return the same `now` (time does not advance inside
a cycle).  Calls to external services (`ScheduleDelayed`, `ScheduleClear`,
`_set_hysteresis_factor`) are recorded in the cycle output.
-/

namespace LandDetector

/-- Number of microseconds in `1_s`. -/
def oneSecondUs : Nat := 1000000

/-- Number of microseconds in `50_ms`, the backup schedule period. -/
def fiftyMsUs : Nat := 50000

/-- Rational value of single-precision `FLT_EPSILON` (2⁻²³). -/
def fltEpsilon : ℚ := 1 / 2 ^ 23

/-- The `vehicle_land_detected` message (`_land_detected`).  `alt_max = none` models
the `INFINITY` sentinel. -/
structure VehicleLandDetected where
  timestamp : Nat
  alt_max : Option ℚ
  freefall : Bool
  landed : Bool
  maybe_landed : Bool
  ground_contact : Bool
  in_ground_effect : Bool
deriving DecidableEq

/-- The durable parameter store slots `LND_FLIGHT_T_HI` / `LND_FLIGHT_T_LO` plus the
parameter-bus notification flag that `_parameter_update_sub.updated()` observes.
`commit_no_notification()` writes a slot without raising `notify_pending`; a plain
`commit()` (not used by this code) would raise it. -/
structure ParamStore where
  flight_time_high : Nat
  flight_time_low : Nat
  notify_pending : Bool
deriving DecidableEq

/-- The mutable state of `LandDetector` that `Run` touches. -/
structure State where
  land_detected : VehicleLandDetected
  armed : Bool
  previous_armed_state : Bool
  takeoff_time : Nat        -- `_takeoff_time`; 0 = unset
  total_flight_time : Nat   -- `_total_flight_time` (uint64)
  dist_bottom_is_observable : Bool
  high_hysteresis_active : Bool
  hysteresis_factor : Nat   -- current factor held by the raw-state provider
  params : ParamStore
deriving DecidableEq

/-- External inputs of one cycle: uORB updates, the debounced gate outputs, the raw
provider altitude judgment, the clock, and the shutdown request. -/
structure Input where
  ext_param_publish : Bool       -- an external parameter_update publication this cycle
  armed_update : Option Bool     -- `_actuator_armed_sub.update` payload, if any
  dist_bottom_sensor_range : Bool  -- `dist_bottom_sensor_bitfield & DIST_BOTTOM_SENSOR_RANGE ≠ 0`
  dist_bottom_valid : Bool
  now : Nat                      -- `hrt_absolute_time()` in µs
  freefall : Bool
  ground_contact : Bool
  maybe_landed : Bool
  landed : Bool
  ground_effect : Bool
  max_altitude : ℚ               -- `_get_max_altitude()`
  should_exit : Bool
deriving DecidableEq

/-- A call made to the scheduler during the cycle. -/
inductive SchedAction where
  | delayed (us : Nat)
  | clear
deriving DecidableEq

/-- Externally observable events of one cycle. -/
structure CycleOut where
  schedActions : List SchedAction   -- scheduler calls, in program order
  factorCalls : List Nat            -- arguments of `_set_hysteresis_factor` calls
  paramRefreshed : Bool             -- whether the parameter-refresh branch ran
  published : Bool                  -- whether `_vehicle_land_detected_pub.publish` ran
deriving DecidableEq

/-- `static_cast<uint64_t>` of the `int32` whose 32-bit pattern is `h`:
values ≥ 2³¹ are negative and sign-extend. -/
def signExtend32 (h : Nat) : Nat :=
  if h < 2 ^ 31 then h else 2 ^ 64 - 2 ^ 32 + h

/-- Lines 78–79: `_total_flight_time = uint64(high.get()) << 32; _total_flight_time |= uint32(low.get())`. -/
def reconstructTotal (hi lo : Nat) : Nat :=
  ((signExtend32 hi <<< 32) % 2 ^ 64) ||| (lo % 2 ^ 32)

/-- Line 160: `(_total_flight_time >> 32) & 0xffffffff`. -/
def splitHigh (t : Nat) : Nat := (t >>> 32) &&& 0xffffffff

/-- Line 165: `_total_flight_time & 0xffffffff`. -/
def splitLow (t : Nat) : Nat := t &&& 0xffffffff

/-- Lines 71–80: on parameter-bus update or very first cycle (`timestamp == 0`),
copy/consume the update and reconstruct the accumulator from the stored halves.
Returns the new state and whether the branch ran. -/
def refreshPhase (s : State) (i : Input) : State × Bool :=
  let updated := s.params.notify_pending || i.ext_param_publish
  if updated || s.land_detected.timestamp = 0 then
    ({ s with
        total_flight_time := reconstructTotal s.params.flight_time_high s.params.flight_time_low,
        params := { s.params with notify_pending := false } }, true)
  else (s, false)

/-- Lines 82–86: `if (_actuator_armed_sub.update(&actuator_armed)) _armed = actuator_armed.armed`. -/
def armedUpdatePhase (s : State) (i : Input) : State :=
  { s with armed := i.armed_update.getD s.armed }

/-- The armed flag in effect after the subscription update of this cycle. -/
def armedNow (s : State) (i : Input) : Bool :=
  i.armed_update.getD s.armed

/-- Lines 99–113: one-way observability latch, then hysteresis-factor modulation from the
live `dist_bottom_valid` flag.  Also returns the `_set_hysteresis_factor` calls made. -/
def observabilityPhase (s : State) (i : Input) : State × List Nat :=
  if !s.dist_bottom_is_observable then
    ({ s with dist_bottom_is_observable := i.dist_bottom_sensor_range }, [])
  else if !s.high_hysteresis_active && !i.dist_bottom_valid then
    ({ s with hysteresis_factor := 3, high_hysteresis_active := true }, [3])
  else if s.high_hysteresis_active && i.dist_bottom_valid then
    ({ s with hysteresis_factor := 1, high_hysteresis_active := false }, [1])
  else (s, [])

/-- Line 127: `_get_max_altitude() > 0.0f ? _get_max_altitude() : INFINITY`. -/
def computedAltMax (i : Input) : Option ℚ :=
  if 0 < i.max_altitude then some i.max_altitude else none

/-- The line-137 test `fabsf(_land_detected.alt_max - alt_max) > FLT_EPSILON`, with IEEE
infinity semantics: `INF - INF` is NaN and `NaN > ε` is false; `finite - INF` is
infinite and exceeds ε. -/
def altDiffExceedsEps : Option ℚ → Option ℚ → Bool
  | none, none => false
  | none, some _ => true
  | some _, none => true
  | some x, some y => decide (|x - y| > fltEpsilon)

/-- Lines 131–137: publish at 1 Hz or when any reportable field changed. -/
def publishCond (s : State) (i : Input) : Bool :=
  decide (oneSecondUs ≤ i.now - s.land_detected.timestamp) ||
  (s.land_detected.landed != i.landed) ||
  (s.land_detected.freefall != i.freefall) ||
  (s.land_detected.maybe_landed != i.maybe_landed) ||
  (s.land_detected.ground_contact != i.ground_contact) ||
  (s.land_detected.in_ground_effect != i.ground_effect) ||
  altDiffExceedsEps s.land_detected.alt_max (computedAltMax i)

/-- Lines 131–152: the publish branch, including the one-shot takeoff-time recording at
lines 139–142.  Returns the new state and whether a publish happened. -/
def publishPhase (s : State) (i : Input) : State × Bool :=
  if publishCond s i then
    let s1 :=
      if !i.landed && s.land_detected.landed && decide (s.takeoff_time = 0) then
        { s with takeoff_time := i.now }
      else s
    ({ s1 with
        land_detected :=
          { timestamp := i.now
            alt_max := computedAltMax i
            freefall := i.freefall
            landed := i.landed
            maybe_landed := i.maybe_landed
            ground_contact := i.ground_contact
            in_ground_effect := i.ground_effect } }, true)
  else (s, false)

/-- Lines 154–169: on a disarm transition with a tracked takeoff, accumulate the flight
time and persist the two 32-bit halves with `commit_no_notification`. -/
def flightTimePhase (s : State) (i : Input) : State :=
  if s.takeoff_time ≠ 0 ∧ s.armed = false ∧ s.previous_armed_state = true then
    let t := (s.total_flight_time + (i.now - s.takeoff_time)) % 2 ^ 64
    { s with
        total_flight_time := t,
        takeoff_time := 0,
        params := { s.params with
                      flight_time_high := splitHigh t,
                      flight_time_low := splitLow t } }
  else s

/-- The state as it stands at line 156, when the disarm-transition guard is evaluated
(after the publish branch may have recorded a takeoff). -/
def stateAtDisarmCheck (s : State) (i : Input) : State :=
  (publishPhase (observabilityPhase (armedUpdatePhase (refreshPhase s i).1 i) i).1 i).1

/-- One full cycle of `LandDetector::Run` (lines 64–179). -/
def Run (s : State) (i : Input) : State × CycleOut :=
  let r := refreshPhase s i
  let s2 := armedUpdatePhase r.1 i
  let ob := observabilityPhase s2 i
  let pb := publishPhase ob.1 i
  let s5 := flightTimePhase pb.1 i
  let s6 := { s5 with previous_armed_state := s5.armed }
  (s6,
   { schedActions := SchedAction.delayed fiftyMsUs :: (if i.should_exit then [SchedAction.clear] else [])
     factorCalls := ob.2
     paramRefreshed := r.2
     published := pb.2 })

/-- The parameter-refresh branch condition of lines 71 for state `s` and input `i`. -/
def refreshCond (s : State) (i : Input) : Bool :=
  s.params.notify_pending || i.ext_param_publish || decide (s.land_detected.timestamp = 0)

/-- The in-memory accumulator value in effect after the (possible) refresh of this
cycle, i.e. the value the disarm-transition addition applies to. -/
def totalMid (s : State) (i : Input) : Nat :=
  if refreshCond s i then
    reconstructTotal s.params.flight_time_high s.params.flight_time_low
  else s.total_flight_time

/-- A disarm transition: previously armed, now (after the actuator update of this cycle)
disarmed. -/
def disarmTransition (s : State) (i : Input) : Prop :=
  s.previous_armed_state = true ∧ armedNow s i = false

instance (s : State) (i : Input) : Decidable (disarmTransition s i) := by
  unfold disarmTransition; infer_instance

/-! ## Frame lemmas for the phases -/

theorem refreshPhase_fst (s : State) (i : Input) :
    (refreshPhase s i).1 =
      { s with total_flight_time := totalMid s i,
               params := { s.params with notify_pending := false } } := by
  rcases s with ⟨ld, ar, pv, tk, tot, ob, hi, fa, ⟨ph, pl, pn⟩⟩
  unfold refreshPhase totalMid refreshCond
  by_cases hp : pn <;> by_cases he : i.ext_param_publish <;>
    by_cases ht : ld.timestamp = 0 <;> simp_all

theorem refreshPhase_snd (s : State) (i : Input) :
    (refreshPhase s i).2 = refreshCond s i := by
  unfold refreshPhase refreshCond
  by_cases hp : s.params.notify_pending <;> by_cases he : i.ext_param_publish <;>
    by_cases ht : s.land_detected.timestamp = 0 <;> simp_all

theorem armedUpdatePhase_eq (s : State) (i : Input) :
    armedUpdatePhase s i = { s with armed := armedNow s i } := rfl

theorem observabilityPhase_frame (s : State) (i : Input) :
    ((observabilityPhase s i).1).land_detected = s.land_detected ∧
    ((observabilityPhase s i).1).armed = s.armed ∧
    ((observabilityPhase s i).1).previous_armed_state = s.previous_armed_state ∧
    ((observabilityPhase s i).1).takeoff_time = s.takeoff_time ∧
    ((observabilityPhase s i).1).total_flight_time = s.total_flight_time ∧
    ((observabilityPhase s i).1).params = s.params := by
  unfold observabilityPhase
  by_cases h1 : s.dist_bottom_is_observable <;>
    by_cases h2 : s.high_hysteresis_active <;>
    by_cases h3 : i.dist_bottom_valid <;> simp [h1, h2, h3]

theorem publishPhase_frame (s : State) (i : Input) :
    ((publishPhase s i).1).armed = s.armed ∧
    ((publishPhase s i).1).previous_armed_state = s.previous_armed_state ∧
    ((publishPhase s i).1).total_flight_time = s.total_flight_time ∧
    ((publishPhase s i).1).params = s.params ∧
    ((publishPhase s i).1).dist_bottom_is_observable = s.dist_bottom_is_observable ∧
    ((publishPhase s i).1).high_hysteresis_active = s.high_hysteresis_active ∧
    ((publishPhase s i).1).hysteresis_factor = s.hysteresis_factor := by
  unfold publishPhase
  by_cases h1 : publishCond s i <;>
    by_cases h2 : (!i.landed && s.land_detected.landed && decide (s.takeoff_time = 0)) = true <;>
    simp [h1, h2]

theorem flightTimePhase_frame (s : State) (i : Input) :
    (flightTimePhase s i).land_detected = s.land_detected ∧
    (flightTimePhase s i).armed = s.armed ∧
    (flightTimePhase s i).previous_armed_state = s.previous_armed_state ∧
    (flightTimePhase s i).dist_bottom_is_observable = s.dist_bottom_is_observable ∧
    (flightTimePhase s i).high_hysteresis_active = s.high_hysteresis_active ∧
    (flightTimePhase s i).hysteresis_factor = s.hysteresis_factor ∧
    (flightTimePhase s i).params.notify_pending = s.params.notify_pending := by
  unfold flightTimePhase
  split <;> simp

/-! ## C2: split/reconstruct round trip -/

/-- C2: for every 64-bit value of the flight-time accumulator, splitting it into the
high and low 32-bit halves as the persistence code does (lines 160, 165) and then
reconstructing by the startup concatenation (lines 78–79, including the
`int32 → uint64` sign-extending cast) yields exactly the original value. -/
theorem split_reconstruct_roundTrip (t : Nat) (ht : t < 2 ^ 64) :
    reconstructTotal (splitHigh t) (splitLow t) = t := by
  unfold reconstructTotal splitHigh splitLow signExtend32
  have h32 : (0xffffffff : Nat) = 2 ^ 32 - 1 := by norm_num
  rw [h32, Nat.and_pow_two_sub_one_eq_mod, Nat.and_pow_two_sub_one_eq_mod,
      Nat.shiftRight_eq_div_pow, Nat.shiftLeft_eq,
      Nat.mod_mod_of_dvd t (dvd_refl (2 ^ 32))]
  have hq : t / 2 ^ 32 < 2 ^ 32 := by
    apply Nat.div_lt_of_lt_mul
    calc t < 2 ^ 64 := ht
    _ = 2 ^ 32 * 2 ^ 32 := by norm_num
  rw [Nat.mod_eq_of_lt hq]
  have hr : t % 2 ^ 32 < 2 ^ 32 := Nat.mod_lt _ (by norm_num)
  have key : ∀ q : Nat, q < 2 ^ 32 →
      ((if q < 2 ^ 31 then q else 2 ^ 64 - 2 ^ 32 + q) * 2 ^ 32) % 2 ^ 64 = 2 ^ 32 * q := by
    intro q hlt
    split <;> omega
  rw [key _ hq, ← Nat.mul_add_lt_is_or hr (t / 2 ^ 32), Nat.div_add_mod]

/-- C2 witness: a concrete 64-bit accumulator value with the high bit set survives the
round trip. -/
theorem split_reconstruct_roundTrip_witness :
    2 ^ 63 + 424242 < 2 ^ 64 ∧
      reconstructTotal (splitHigh (2 ^ 63 + 424242)) (splitLow (2 ^ 63 + 424242)) =
        2 ^ 63 + 424242 :=
  ⟨by norm_num, split_reconstruct_roundTrip (2 ^ 63 + 424242) (by norm_num)⟩

/-! ## Run-level projection lemmas -/

theorem Run_fst_eq (s : State) (i : Input) :
    (Run s i).1 =
      { flightTimePhase (stateAtDisarmCheck s i) i with
          previous_armed_state := (flightTimePhase (stateAtDisarmCheck s i) i).armed } := rfl

theorem Run_published_eq (s : State) (i : Input) :
    (Run s i).2.published =
      (publishPhase (observabilityPhase (armedUpdatePhase (refreshPhase s i).1 i) i).1 i).2 := rfl

theorem Run_factorCalls_eq (s : State) (i : Input) :
    (Run s i).2.factorCalls =
      (observabilityPhase (armedUpdatePhase (refreshPhase s i).1 i) i).2 := rfl

theorem Run_paramRefreshed (s : State) (i : Input) :
    (Run s i).2.paramRefreshed = refreshCond s i := refreshPhase_snd s i

theorem publishPhase_snd (s : State) (i : Input) :
    (publishPhase s i).2 = publishCond s i := by
  unfold publishPhase
  by_cases h : publishCond s i <;> simp [h]

theorem publishCond_congr (s s' : State) (i : Input)
    (h : s.land_detected = s'.land_detected) : publishCond s i = publishCond s' i := by
  unfold publishCond
  rw [h]

theorem stateAtPublish_land_detected (s : State) (i : Input) :
    ((observabilityPhase (armedUpdatePhase (refreshPhase s i).1 i) i).1).land_detected =
      s.land_detected := by
  rw [(observabilityPhase_frame _ i).1, armedUpdatePhase_eq, refreshPhase_fst]

theorem stateAtPublish_takeoff (s : State) (i : Input) :
    ((observabilityPhase (armedUpdatePhase (refreshPhase s i).1 i) i).1).takeoff_time =
      s.takeoff_time := by
  rw [(observabilityPhase_frame _ i).2.2.2.1, armedUpdatePhase_eq, refreshPhase_fst]

theorem Run_published (s : State) (i : Input) :
    (Run s i).2.published = publishCond s i := by
  rw [Run_published_eq, publishPhase_snd,
      publishCond_congr _ s i (stateAtPublish_land_detected s i)]

theorem stateAtDisarmCheck_armed (s : State) (i : Input) :
    (stateAtDisarmCheck s i).armed = armedNow s i := by
  unfold stateAtDisarmCheck
  rw [(publishPhase_frame _ i).1, (observabilityPhase_frame _ i).2.1, armedUpdatePhase_eq]
  simp [armedNow, refreshPhase_fst]

theorem stateAtDisarmCheck_prev (s : State) (i : Input) :
    (stateAtDisarmCheck s i).previous_armed_state = s.previous_armed_state := by
  unfold stateAtDisarmCheck
  rw [(publishPhase_frame _ i).2.1, (observabilityPhase_frame _ i).2.2.1, armedUpdatePhase_eq,
      refreshPhase_fst]

theorem stateAtDisarmCheck_total (s : State) (i : Input) :
    (stateAtDisarmCheck s i).total_flight_time = totalMid s i := by
  unfold stateAtDisarmCheck
  rw [(publishPhase_frame _ i).2.2.1, (observabilityPhase_frame _ i).2.2.2.2.1,
      armedUpdatePhase_eq, refreshPhase_fst]

theorem stateAtDisarmCheck_params (s : State) (i : Input) :
    (stateAtDisarmCheck s i).params = { s.params with notify_pending := false } := by
  unfold stateAtDisarmCheck
  rw [(publishPhase_frame _ i).2.2.2.1, (observabilityPhase_frame _ i).2.2.2.2.2,
      armedUpdatePhase_eq, refreshPhase_fst]

theorem stateAtDisarmCheck_takeoff (s : State) (i : Input) :
    (stateAtDisarmCheck s i).takeoff_time =
      if publishCond s i ∧ i.landed = false ∧ s.land_detected.landed = true ∧
          s.takeoff_time = 0 then i.now
      else s.takeoff_time := by
  unfold stateAtDisarmCheck publishPhase
  rw [publishCond_congr _ s i (stateAtPublish_land_detected s i)]
  by_cases hp : publishCond s i
  · simp only [hp, if_true, if_pos]
    rw [stateAtPublish_land_detected, stateAtPublish_takeoff]
    by_cases hl : i.landed <;> by_cases ho : s.land_detected.landed <;>
      by_cases ht : s.takeoff_time = 0 <;>
      simp [hl, ho, ht, stateAtPublish_takeoff]
  · simp only [hp, if_false, if_neg]
    simp [hp, stateAtPublish_takeoff]

theorem stateAtDisarmCheck_land (s : State) (i : Input) :
    (stateAtDisarmCheck s i).land_detected =
      if publishCond s i then
        { timestamp := i.now
          alt_max := computedAltMax i
          freefall := i.freefall
          landed := i.landed
          maybe_landed := i.maybe_landed
          ground_contact := i.ground_contact
          in_ground_effect := i.ground_effect }
      else s.land_detected := by
  unfold stateAtDisarmCheck publishPhase
  rw [publishCond_congr _ s i (stateAtPublish_land_detected s i)]
  by_cases hp : publishCond s i
  · simp [hp]
  · simp [hp, stateAtPublish_land_detected]

theorem Run_land (s : State) (i : Input) :
    (Run s i).1.land_detected = (stateAtDisarmCheck s i).land_detected := by
  have h : (Run s i).1.land_detected =
      (flightTimePhase (stateAtDisarmCheck s i) i).land_detected := rfl
  rw [h, (flightTimePhase_frame _ i).1]

theorem Run_takeoff (s : State) (i : Input) :
    (Run s i).1.takeoff_time =
      if (stateAtDisarmCheck s i).takeoff_time ≠ 0 ∧
          (stateAtDisarmCheck s i).armed = false ∧
          (stateAtDisarmCheck s i).previous_armed_state = true then 0
      else (stateAtDisarmCheck s i).takeoff_time := by
  have h : (Run s i).1.takeoff_time =
      (flightTimePhase (stateAtDisarmCheck s i) i).takeoff_time := rfl
  rw [h]
  unfold flightTimePhase
  split <;> simp_all

theorem Run_notify (s : State) (i : Input) :
    (Run s i).1.params.notify_pending = false := by
  have h : (Run s i).1.params.notify_pending =
      (flightTimePhase (stateAtDisarmCheck s i) i).params.notify_pending := rfl
  rw [h, (flightTimePhase_frame _ i).2.2.2.2.2.2, stateAtDisarmCheck_params]

/-! ## C9: scheduling liveness -/

/-- C9: every invocation of `Run` re-arms the 50 ms schedule as its very first scheduler
action (lines 64–67), regardless of what else happens in the cycle, and a `ScheduleClear`
(deregistration) is issued exactly when a shutdown request is observed by the
once-per-cycle check (lines 175–178). -/
theorem schedule_rearm_and_clear (s : State) (i : Input) :
    (Run s i).2.schedActions.head? = some (SchedAction.delayed fiftyMsUs) ∧
    (SchedAction.clear ∈ (Run s i).2.schedActions ↔ i.should_exit = true) := by
  cases hex : i.should_exit <;> simp [Run, hex]

/-! ## C3: publish condition -/

/-- C3: in every cycle a snapshot is published if and only if at least one second has
elapsed since the last published timestamp, or one of the six reportable fields
(`landed`, `freefall`, `maybe_landed`, `ground_contact`, `in_ground_effect`, or
`alt_max` by more than `FLT_EPSILON`, with IEEE infinity semantics) differs from the
last published snapshot (lines 131–152). -/
theorem publish_iff (s : State) (i : Input) :
    (Run s i).2.published = true ↔
      (oneSecondUs ≤ i.now - s.land_detected.timestamp ∨
       s.land_detected.landed ≠ i.landed ∨
       s.land_detected.freefall ≠ i.freefall ∨
       s.land_detected.maybe_landed ≠ i.maybe_landed ∨
       s.land_detected.ground_contact ≠ i.ground_contact ∨
       s.land_detected.in_ground_effect ≠ i.ground_effect ∨
       altDiffExceedsEps s.land_detected.alt_max (computedAltMax i) = true) := by
  rw [Run_published]
  unfold publishCond
  simp [Bool.or_eq_true, bne_iff_ne, decide_eq_true_eq, ne_comm]
  tauto

/-! ## C1: flight-time accumulation on disarm -/

/-- C1: on every cycle that was previously armed and is now disarmed with a takeoff
tracked, `Run` adds exactly `now - takeoff_time` to the in-memory accumulator (the value
in effect after the possible parameter refresh of this cycle, `totalMid`), clears the takeoff
time to unset, and writes the high and low 32-bit halves of the new accumulator to the
two parameter slots (lines 156–169). -/
theorem disarm_flight_time_update (s : State) (i : Input)
    (htk : s.takeoff_time ≠ 0)
    (hprev : s.previous_armed_state = true)
    (harm : armedNow s i = false)
    (hle : s.takeoff_time ≤ i.now)
    (hof : totalMid s i + (i.now - s.takeoff_time) < 2 ^ 64) :
    (Run s i).1.total_flight_time = totalMid s i + (i.now - s.takeoff_time) ∧
    (Run s i).1.takeoff_time = 0 ∧
    (Run s i).1.params.flight_time_high = splitHigh ((Run s i).1.total_flight_time) ∧
    (Run s i).1.params.flight_time_low = splitLow ((Run s i).1.total_flight_time) := by
  have hmtk : (stateAtDisarmCheck s i).takeoff_time = s.takeoff_time := by
    rw [stateAtDisarmCheck_takeoff, if_neg]
    exact fun h => htk h.2.2.2
  have hguard : (stateAtDisarmCheck s i).takeoff_time ≠ 0 ∧
      (stateAtDisarmCheck s i).armed = false ∧
      (stateAtDisarmCheck s i).previous_armed_state = true := by
    refine ⟨?_, ?_, ?_⟩
    · rw [hmtk]; exact htk
    · rw [stateAtDisarmCheck_armed]; exact harm
    · rw [stateAtDisarmCheck_prev]; exact hprev
  have htv : ((stateAtDisarmCheck s i).total_flight_time +
      (i.now - (stateAtDisarmCheck s i).takeoff_time)) % 2 ^ 64 =
      totalMid s i + (i.now - s.takeoff_time) := by
    rw [stateAtDisarmCheck_total, hmtk]
    exact Nat.mod_eq_of_lt hof
  have key : flightTimePhase (stateAtDisarmCheck s i) i =
      { stateAtDisarmCheck s i with
          total_flight_time := totalMid s i + (i.now - s.takeoff_time),
          takeoff_time := 0,
          params := { (stateAtDisarmCheck s i).params with
                        flight_time_high := splitHigh (totalMid s i + (i.now - s.takeoff_time)),
                        flight_time_low := splitLow (totalMid s i + (i.now - s.takeoff_time)) } } := by
    unfold flightTimePhase
    rw [if_pos hguard]
    simp only [htv]
  rw [Run_fst_eq, key]
  exact ⟨rfl, rfl, rfl, rfl⟩

/-- Concrete state for the C1 witness scenario: armed, takeoff tracked at t = 1000,
accumulator at 0. -/
def c1s : State :=
  { land_detected :=
      { timestamp := 7, alt_max := none, freefall := false, landed := false,
        maybe_landed := false, ground_contact := false, in_ground_effect := false }
    armed := true
    previous_armed_state := true
    takeoff_time := 1000
    total_flight_time := 0
    dist_bottom_is_observable := false
    high_hysteresis_active := false
    hysteresis_factor := 1
    params := { flight_time_high := 0, flight_time_low := 0, notify_pending := false } }

/-- Concrete input for the C1 witness scenario: disarm observed at t = 5000. -/
def c1i : Input :=
  { ext_param_publish := false
    armed_update := some false
    dist_bottom_sensor_range := false
    dist_bottom_valid := false
    now := 5000
    freefall := false
    ground_contact := false
    maybe_landed := false
    landed := false
    ground_effect := false
    max_altitude := 0
    should_exit := false }

/-- C1 witness: takeoff recorded at t = 1000, disarm processed at t = 5000 — the
accumulator increases by exactly 4000, the takeoff time resets to unset, and the two
persisted halves hold the split of the new value. -/
theorem disarm_flight_time_update_witness :
    (Run c1s c1i).1.total_flight_time = 4000 ∧
    (Run c1s c1i).1.takeoff_time = 0 ∧
    (Run c1s c1i).1.params.flight_time_high = 0 ∧
    (Run c1s c1i).1.params.flight_time_low = 4000 := by
  have h := disarm_flight_time_update c1s c1i (by decide) (by decide) (by decide)
    (by decide) (by decide)
  refine ⟨?_, h.2.1, ?_, ?_⟩
  · rw [h.1]; decide
  · rw [h.2.2.1, h.1]; decide
  · rw [h.2.2.2, h.1]; decide

/-! ## C4: one-shot takeoff marking -/

/-- C4: `takeoff_time` is recorded (to the cycle time) only on a publish whose previous
published `landed` was true, new `landed` is false, and no takeoff is tracked
(lines 139–142); a tracked takeoff is never overwritten, and it is cleared exactly when
the disarm transition is processed (lines 156–158). -/
theorem takeoff_time_once (s : State) (i : Input) :
    ((Run s i).1.takeoff_time ≠ 0 → (Run s i).1.takeoff_time ≠ s.takeoff_time →
      s.takeoff_time = 0 ∧ (Run s i).2.published = true ∧
      s.land_detected.landed = true ∧ i.landed = false ∧
      (Run s i).1.takeoff_time = i.now) ∧
    (s.takeoff_time ≠ 0 → ¬ disarmTransition s i →
      (Run s i).1.takeoff_time = s.takeoff_time) ∧
    (s.takeoff_time ≠ 0 → disarmTransition s i → (Run s i).1.takeoff_time = 0) ∧
    (s.takeoff_time ≠ 0 → (Run s i).1.takeoff_time = 0 → disarmTransition s i) := by
  have hrt := Run_takeoff s i
  rw [stateAtDisarmCheck_takeoff, stateAtDisarmCheck_armed, stateAtDisarmCheck_prev] at hrt
  refine ⟨?_, ?_, ?_, ?_⟩
  · intro h0 hne
    by_cases hP : (publishCond s i = true ∧ i.landed = false ∧
        s.land_detected.landed = true ∧ s.takeoff_time = 0)
    · rw [if_pos hP] at hrt
      by_cases hg : (i.now ≠ 0 ∧ armedNow s i = false ∧ s.previous_armed_state = true)
      · rw [if_pos hg] at hrt
        exact absurd hrt h0
      · rw [if_neg hg] at hrt
        exact ⟨hP.2.2.2, by rw [Run_published]; exact hP.1, hP.2.2.1, hP.2.1, hrt⟩
    · rw [if_neg hP] at hrt
      by_cases hg : (s.takeoff_time ≠ 0 ∧ armedNow s i = false ∧ s.previous_armed_state = true)
      · rw [if_pos hg] at hrt
        exact absurd hrt h0
      · rw [if_neg hg] at hrt
        exact absurd hrt hne
  · intro htk hnd
    have hPneg : ¬(publishCond s i = true ∧ i.landed = false ∧
        s.land_detected.landed = true ∧ s.takeoff_time = 0) := fun h => htk h.2.2.2
    have hGneg : ¬(s.takeoff_time ≠ 0 ∧ armedNow s i = false ∧
        s.previous_armed_state = true) := fun h => hnd ⟨h.2.2, h.2.1⟩
    rw [if_neg hPneg, if_neg hGneg] at hrt
    exact hrt
  · intro htk hd
    have hPneg : ¬(publishCond s i = true ∧ i.landed = false ∧
        s.land_detected.landed = true ∧ s.takeoff_time = 0) := fun h => htk h.2.2.2
    rw [if_neg hPneg, if_pos ⟨htk, hd.2, hd.1⟩] at hrt
    exact hrt
  · intro htk h0
    by_contra hnd
    have hPneg : ¬(publishCond s i = true ∧ i.landed = false ∧
        s.land_detected.landed = true ∧ s.takeoff_time = 0) := fun h => htk h.2.2.2
    have hGneg : ¬(s.takeoff_time ≠ 0 ∧ armedNow s i = false ∧
        s.previous_armed_state = true) := fun h => hnd ⟨h.2.2, h.2.1⟩
    rw [if_neg hPneg, if_neg hGneg] at hrt
    rw [hrt] at h0
    exact htk h0

/-- Concrete state for the C4 witness: takeoff tracked at t = 500, still armed. -/
def c4s : State :=
  { land_detected :=
      { timestamp := 7, alt_max := none, freefall := false, landed := false,
        maybe_landed := false, ground_contact := false, in_ground_effect := false }
    armed := true
    previous_armed_state := true
    takeoff_time := 500
    total_flight_time := 0
    dist_bottom_is_observable := false
    high_hysteresis_active := false
    hysteresis_factor := 1
    params := { flight_time_high := 0, flight_time_low := 0, notify_pending := false } }

/-- Concrete input for the C4 witness: a not-landed cycle with no disarm. -/
def c4i : Input :=
  { ext_param_publish := false
    armed_update := none
    dist_bottom_sensor_range := false
    dist_bottom_valid := false
    now := 9000
    freefall := false
    ground_contact := false
    maybe_landed := false
    landed := false
    ground_effect := false
    max_altitude := 0
    should_exit := false }

/-- C4 witness: with a takeoff tracked at t = 500 and no disarm transition, a further
not-landed cycle leaves the tracked takeoff time untouched; with a disarm transition it
is cleared. -/
theorem takeoff_time_once_witness :
    (Run c4s c4i).1.takeoff_time = 500 ∧
    (Run c4s { c4i with armed_update := some false }).1.takeoff_time = 0 :=
  ⟨(takeoff_time_once c4s c4i).2.1 (by decide) (by decide),
   (takeoff_time_once c4s { c4i with armed_update := some false }).2.2.1 (by decide)
     (by decide)⟩

/-! ## Transport lemmas for the observability fields -/

theorem stateAtObs_fields (s : State) (i : Input) :
    (armedUpdatePhase (refreshPhase s i).1 i).dist_bottom_is_observable =
        s.dist_bottom_is_observable ∧
    (armedUpdatePhase (refreshPhase s i).1 i).high_hysteresis_active =
        s.high_hysteresis_active ∧
    (armedUpdatePhase (refreshPhase s i).1 i).hysteresis_factor = s.hysteresis_factor := by
  rw [armedUpdatePhase_eq, refreshPhase_fst]
  exact ⟨rfl, rfl, rfl⟩

theorem Run_obs (s : State) (i : Input) :
    (Run s i).1.dist_bottom_is_observable =
      ((observabilityPhase (armedUpdatePhase (refreshPhase s i).1 i) i).1).dist_bottom_is_observable := by
  have h : (Run s i).1.dist_bottom_is_observable =
      (flightTimePhase (stateAtDisarmCheck s i) i).dist_bottom_is_observable := rfl
  rw [h, (flightTimePhase_frame _ i).2.2.2.1]
  exact (publishPhase_frame _ i).2.2.2.2.1

theorem Run_active (s : State) (i : Input) :
    (Run s i).1.high_hysteresis_active =
      ((observabilityPhase (armedUpdatePhase (refreshPhase s i).1 i) i).1).high_hysteresis_active := by
  have h : (Run s i).1.high_hysteresis_active =
      (flightTimePhase (stateAtDisarmCheck s i) i).high_hysteresis_active := rfl
  rw [h, (flightTimePhase_frame _ i).2.2.2.2.1]
  exact (publishPhase_frame _ i).2.2.2.2.2.1

theorem Run_factor (s : State) (i : Input) :
    (Run s i).1.hysteresis_factor =
      ((observabilityPhase (armedUpdatePhase (refreshPhase s i).1 i) i).1).hysteresis_factor := by
  have h : (Run s i).1.hysteresis_factor =
      (flightTimePhase (stateAtDisarmCheck s i) i).hysteresis_factor := rfl
  rw [h, (flightTimePhase_frame _ i).2.2.2.2.2.1]
  exact (publishPhase_frame _ i).2.2.2.2.2.2

theorem observabilityPhase_obs (s : State) (i : Input) :
    ((observabilityPhase s i).1).dist_bottom_is_observable =
      (s.dist_bottom_is_observable || i.dist_bottom_sensor_range) := by
  unfold observabilityPhase
  by_cases h1 : s.dist_bottom_is_observable <;>
    by_cases h2 : s.high_hysteresis_active <;>
    by_cases h3 : i.dist_bottom_valid <;> simp [h1, h2, h3]

/-! ## C6: one-way observability latch -/

/-- C6: `dist_bottom_observable` after a cycle is the previous value OR-ed with the
ranging-sensor bit — so once true it stays true forever, even if the bit later clears,
and while it is false the latch branch (lines 99–103) is the only one taken: no call to
`_set_hysteresis_factor` is made and the factor is unchanged. -/
theorem dist_bottom_observable_latch (s : State) (i : Input) :
    (Run s i).1.dist_bottom_is_observable =
      (s.dist_bottom_is_observable || i.dist_bottom_sensor_range) ∧
    (s.dist_bottom_is_observable = false →
      (Run s i).2.factorCalls = [] ∧
      (Run s i).1.hysteresis_factor = s.hysteresis_factor) := by
  have hf := stateAtObs_fields s i
  constructor
  · rw [Run_obs, observabilityPhase_obs, hf.1]
  · intro hobs
    have hX : (armedUpdatePhase (refreshPhase s i).1 i).dist_bottom_is_observable = false := by
      rw [hf.1]; exact hobs
    constructor
    · rw [Run_factorCalls_eq]
      unfold observabilityPhase
      simp [hX]
    · rw [Run_factor]
      unfold observabilityPhase
      simp [hX, hf.2.2]

/-- Concrete state for the C6 witness: no ranging sensor ever seen yet. -/
def c6s : State :=
  { land_detected :=
      { timestamp := 7, alt_max := none, freefall := false, landed := false,
        maybe_landed := false, ground_contact := false, in_ground_effect := false }
    armed := false
    previous_armed_state := false
    takeoff_time := 0
    total_flight_time := 0
    dist_bottom_is_observable := false
    high_hysteresis_active := false
    hysteresis_factor := 1
    params := { flight_time_high := 0, flight_time_low := 0, notify_pending := false } }

/-- Concrete input for the C6 witness: the ranging-sensor bit appears, distance invalid. -/
def c6i : Input :=
  { ext_param_publish := false
    armed_update := none
    dist_bottom_sensor_range := true
    dist_bottom_valid := false
    now := 100
    freefall := false
    ground_contact := false
    maybe_landed := false
    landed := false
    ground_effect := false
    max_altitude := 0
    should_exit := false }

/-- C6 witness: on the latching cycle itself the factor is untouched and no
`_set_hysteresis_factor` call is made, while the latch becomes true. -/
theorem dist_bottom_observable_latch_witness :
    (Run c6s c6i).1.dist_bottom_is_observable = true ∧
    (Run c6s c6i).2.factorCalls = [] ∧
    (Run c6s c6i).1.hysteresis_factor = 1 :=
  ⟨(dist_bottom_observable_latch c6s c6i).1,
   ((dist_bottom_observable_latch c6s c6i).2 (by decide)).1,
   ((dist_bottom_observable_latch c6s c6i).2 (by decide)).2⟩

/-! ## C5: hysteresis-factor modulation -/

/-- Concrete state for the C5 counterexample: latch not yet set, sensitivity nominal. -/
def c5s : State :=
  { land_detected :=
      { timestamp := 7, alt_max := none, freefall := false, landed := false,
        maybe_landed := false, ground_contact := false, in_ground_effect := false }
    armed := false
    previous_armed_state := false
    takeoff_time := 0
    total_flight_time := 0
    dist_bottom_is_observable := false
    high_hysteresis_active := false
    hysteresis_factor := 1
    params := { flight_time_high := 0, flight_time_low := 0, notify_pending := false } }

/-- First C5 cycle: the ranging-sensor bit is seen (latch sets) while distance is invalid. -/
def c5i1 : Input :=
  { ext_param_publish := false
    armed_update := none
    dist_bottom_sensor_range := true
    dist_bottom_valid := false
    now := 100
    freefall := false
    ground_contact := false
    maybe_landed := false
    landed := false
    ground_effect := false
    max_altitude := 0
    should_exit := false }

/-- Second C5 cycle: the validity flag transitions false→true. -/
def c5i2 : Input :=
  { ext_param_publish := false
    armed_update := none
    dist_bottom_sensor_range := true
    dist_bottom_valid := true
    now := 200
    freefall := false
    ground_contact := false
    maybe_landed := false
    landed := false
    ground_effect := false
    max_altitude := 0
    should_exit := false }

/-- C5 counterexample: after the latch is set (first cycle, validity false), a cycle in
which the live validity flag transitions false→true while high sensitivity is not yet
active leaves the factor at 1 and the active mark clear — the code does NOT raise the
factor to 3 there (it raises it only when validity is false, lines 105–108), refuting
the claim as stated. -/
theorem hysteresis_raise_claim_counterexample :
    (Run c5s c5i1).1.dist_bottom_is_observable = true ∧
    (Run c5s c5i1).1.high_hysteresis_active = false ∧
    c5i1.dist_bottom_valid = false ∧
    c5i2.dist_bottom_valid = true ∧
    (Run (Run c5s c5i1).1 c5i2).1.hysteresis_factor = 1 ∧
    (Run (Run c5s c5i1).1 c5i2).1.high_hysteresis_active = false ∧
    (Run (Run c5s c5i1).1 c5i2).2.factorCalls = [] := by
  decide

/-- C5 as amended: after the observability latch is set, on any cycle where the live
validity flag is FALSE while high sensitivity is not yet active the engine raises the
factor to 3 and marks high sensitivity active, and on any cycle where the validity flag
is true while high sensitivity is active it lowers the factor to 1 and clears the mark
(lines 104–113). -/
theorem hysteresis_factor_modulation (s : State) (i : Input)
    (hobs : s.dist_bottom_is_observable = true) :
    (s.high_hysteresis_active = false → i.dist_bottom_valid = false →
      (Run s i).1.hysteresis_factor = 3 ∧
      (Run s i).1.high_hysteresis_active = true ∧
      (Run s i).2.factorCalls = [3]) ∧
    (s.high_hysteresis_active = true → i.dist_bottom_valid = true →
      (Run s i).1.hysteresis_factor = 1 ∧
      (Run s i).1.high_hysteresis_active = false ∧
      (Run s i).2.factorCalls = [1]) := by
  have hf := stateAtObs_fields s i
  have hX : (armedUpdatePhase (refreshPhase s i).1 i).dist_bottom_is_observable = true := by
    rw [hf.1]; exact hobs
  constructor
  · intro hact hval
    have hXa : (armedUpdatePhase (refreshPhase s i).1 i).high_hysteresis_active = false := by
      rw [hf.2.1]; exact hact
    refine ⟨?_, ?_, ?_⟩
    · rw [Run_factor]; unfold observabilityPhase; simp [hX, hXa, hval]
    · rw [Run_active]; unfold observabilityPhase; simp [hX, hXa, hval]
    · rw [Run_factorCalls_eq]; unfold observabilityPhase; simp [hX, hXa, hval]
  · intro hact hval
    have hXa : (armedUpdatePhase (refreshPhase s i).1 i).high_hysteresis_active = true := by
      rw [hf.2.1]; exact hact
    refine ⟨?_, ?_, ?_⟩
    · rw [Run_factor]; unfold observabilityPhase; simp [hX, hXa, hval]
    · rw [Run_active]; unfold observabilityPhase; simp [hX, hXa, hval]
    · rw [Run_factorCalls_eq]; unfold observabilityPhase; simp [hX, hXa, hval]

/-- C5 amended witness: with the latch set, losing validity with sensitivity not active
raises the factor to 3 and marks it active; with sensitivity active, a valid cycle
lowers the factor to 1 and clears the mark. -/
theorem hysteresis_factor_modulation_witness :
    ((Run { c5s with dist_bottom_is_observable := true } c5i1).1.hysteresis_factor = 3 ∧
     (Run { c5s with dist_bottom_is_observable := true } c5i1).1.high_hysteresis_active = true ∧
     (Run { c5s with dist_bottom_is_observable := true } c5i1).2.factorCalls = [3]) ∧
    ((Run { c5s with dist_bottom_is_observable := true, high_hysteresis_active := true }
        c5i2).1.hysteresis_factor = 1 ∧
     (Run { c5s with dist_bottom_is_observable := true, high_hysteresis_active := true }
        c5i2).1.high_hysteresis_active = false ∧
     (Run { c5s with dist_bottom_is_observable := true, high_hysteresis_active := true }
        c5i2).2.factorCalls = [1]) :=
  ⟨(hysteresis_factor_modulation { c5s with dist_bottom_is_observable := true } c5i1
      (by decide)).1 (by decide) (by decide),
   (hysteresis_factor_modulation
      { c5s with dist_bottom_is_observable := true, high_hysteresis_active := true } c5i2
      (by decide)).2 (by decide) (by decide)⟩

/-! ## C7: reported alt_max -/

theorem publishPhase_land_of_cond (s : State) (i : Input) (h : publishCond s i = true) :
    ((publishPhase s i).1).land_detected =
      { timestamp := i.now
        alt_max := computedAltMax i
        freefall := i.freefall
        landed := i.landed
        maybe_landed := i.maybe_landed
        ground_contact := i.ground_contact
        in_ground_effect := i.ground_effect } := by
  unfold publishPhase
  rw [if_pos h]

/-- C7: whenever the snapshot is published, its `alt_max` equals the current
maximum-altitude judgment of the raw provider when that value is strictly positive, and `+∞`
(modelled as `none`) otherwise (line 127). -/
theorem alt_max_reported (s : State) (i : Input)
    (hpub : (Run s i).2.published = true) :
    (0 < i.max_altitude → (Run s i).1.land_detected.alt_max = some i.max_altitude) ∧
    (i.max_altitude ≤ 0 → (Run s i).1.land_detected.alt_max = none) := by
  have hc : publishCond s i = true := by rw [← Run_published]; exact hpub
  have hland : (Run s i).1.land_detected =
      { timestamp := i.now
        alt_max := computedAltMax i
        freefall := i.freefall
        landed := i.landed
        maybe_landed := i.maybe_landed
        ground_contact := i.ground_contact
        in_ground_effect := i.ground_effect } := by
    rw [Run_land, stateAtDisarmCheck_land, if_pos hc]
  constructor
  · intro hpos
    rw [hland]
    show computedAltMax i = some i.max_altitude
    unfold computedAltMax
    rw [if_pos hpos]
  · intro hneg
    rw [hland]
    show computedAltMax i = none
    unfold computedAltMax
    rw [if_neg (not_lt.mpr hneg)]

/-- Concrete state for the C7 witness. -/
def c7s : State :=
  { land_detected :=
      { timestamp := 0, alt_max := some 0, freefall := false, landed := false,
        maybe_landed := false, ground_contact := false, in_ground_effect := false }
    armed := false
    previous_armed_state := false
    takeoff_time := 0
    total_flight_time := 0
    dist_bottom_is_observable := false
    high_hysteresis_active := false
    hysteresis_factor := 1
    params := { flight_time_high := 0, flight_time_low := 0, notify_pending := false } }

/-- Concrete input for the C7 witness: a publishing cycle with a positive ceiling. -/
def c7i : Input :=
  { ext_param_publish := false
    armed_update := none
    dist_bottom_sensor_range := false
    dist_bottom_valid := false
    now := 2000000
    freefall := false
    ground_contact := false
    maybe_landed := false
    landed := false
    ground_effect := false
    max_altitude := 5
    should_exit := false }

/-- C7 witness: a publishing cycle with provider judgment 5 reports `alt_max = 5`; the
same cycle with judgment 0 reports `+∞` (`none`). -/
theorem alt_max_reported_witness :
    (Run c7s c7i).1.land_detected.alt_max = some 5 ∧
    (Run c7s { c7i with max_altitude := 0 }).1.land_detected.alt_max = none :=
  ⟨(alt_max_reported c7s c7i (by decide)).1 (by decide),
   (alt_max_reported c7s { c7i with max_altitude := 0 } (by decide)).2 (by decide)⟩

/-! ## C8: parameter-refresh gating -/

/-- C8: the accumulator-reconstruction branch runs exactly when the parameter bus
reports an update or the published timestamp is still 0 (lines 71–80); the commits made by the engine
itself never leave a bus notification pending, so after any cycle whose published
timestamp is nonzero, a follow-up cycle with no external parameter publication does not
re-run the refresh branch (lines 160–168 use `commit_no_notification`). -/
theorem param_refresh_gating (s : State) (i : Input) :
    ((Run s i).2.paramRefreshed =
      (s.params.notify_pending || i.ext_param_publish ||
        decide (s.land_detected.timestamp = 0))) ∧
    ((Run s i).1.params.notify_pending = false) ∧
    (∀ j : Input, j.ext_param_publish = false →
      (Run s i).1.land_detected.timestamp ≠ 0 →
      (Run (Run s i).1 j).2.paramRefreshed = false) := by
  refine ⟨Run_paramRefreshed s i, Run_notify s i, ?_⟩
  intro j hj ht
  rw [Run_paramRefreshed]
  unfold refreshCond
  rw [Run_notify, hj]
  simp [ht]

/-- Concrete state for the C8 witness: a disarm-with-takeoff cycle, so the cycle writes
both parameter halves via the no-notification commits. -/
def c8s : State :=
  { land_detected :=
      { timestamp := 7, alt_max := none, freefall := false, landed := false,
        maybe_landed := false, ground_contact := false, in_ground_effect := false }
    armed := true
    previous_armed_state := true
    takeoff_time := 1000
    total_flight_time := 0
    dist_bottom_is_observable := false
    high_hysteresis_active := false
    hysteresis_factor := 1
    params := { flight_time_high := 0, flight_time_low := 0, notify_pending := false } }

/-- Concrete input for the C8 witness: disarm at t = 5000 with no external parameter
publication. -/
def c8i : Input :=
  { ext_param_publish := false
    armed_update := some false
    dist_bottom_sensor_range := false
    dist_bottom_valid := false
    now := 5000
    freefall := false
    ground_contact := false
    maybe_landed := false
    landed := false
    ground_effect := false
    max_altitude := 0
    should_exit := false }

/-- Follow-up input for the C8 witness: no external parameter publication. -/
def c8j : Input :=
  { ext_param_publish := false
    armed_update := none
    dist_bottom_sensor_range := false
    dist_bottom_valid := false
    now := 6000
    freefall := false
    ground_contact := false
    maybe_landed := false
    landed := false
    ground_effect := false
    max_altitude := 0
    should_exit := false }

/-- C8 witness: even right after a cycle that wrote both parameter halves on disarm, the
next cycle does not re-run the refresh branch when no external update arrives. -/
theorem param_refresh_gating_witness :
    (Run (Run c8s c8i).1 c8j).2.paramRefreshed = false :=
  (param_refresh_gating c8s c8i).2.2 c8j (by decide) (by decide)

/-! ## C10: frame effect of the disarm branch -/

theorem flightTimePhase_of_guard_neg (s : State) (i : Input)
    (h : ¬(s.takeoff_time ≠ 0 ∧ s.armed = false ∧ s.previous_armed_state = true)) :
    flightTimePhase s i = s := by
  unfold flightTimePhase
  rw [if_neg h]

/-- Concrete state for the C10 counterexample: stored halves encode 2³², in-memory
accumulator 0, armed with no takeoff tracked. -/
def c10s : State :=
  { land_detected :=
      { timestamp := 7, alt_max := none, freefall := false, landed := false,
        maybe_landed := false, ground_contact := false, in_ground_effect := false }
    armed := true
    previous_armed_state := true
    takeoff_time := 0
    total_flight_time := 0
    dist_bottom_is_observable := false
    high_hysteresis_active := false
    hysteresis_factor := 1
    params := { flight_time_high := 1, flight_time_low := 0, notify_pending := false } }

/-- Concrete input for the C10 counterexample: disarm together with an external
parameter publication in the same cycle. -/
def c10i : Input :=
  { ext_param_publish := true
    armed_update := some false
    dist_bottom_sensor_range := false
    dist_bottom_valid := false
    now := 5000
    freefall := false
    ground_contact := false
    maybe_landed := false
    landed := false
    ground_effect := false
    max_altitude := 0
    should_exit := false }

/-- C10 counterexample: a cycle with a disarm transition and no takeoff tracked (neither
before the cycle nor at the line-156 check) in which the in-memory `total_flight_time`
nevertheless changes — the parameter-refresh branch of the same cycle overwrites it with
the reconstructed stored value, refuting “left completely unchanged” as stated. -/
theorem disarm_no_takeoff_frame_counterexample :
    c10s.previous_armed_state = true ∧
    armedNow c10s c10i = false ∧
    c10s.takeoff_time = 0 ∧
    (stateAtDisarmCheck c10s c10i).takeoff_time = 0 ∧
    (Run c10s c10i).1.total_flight_time ≠ c10s.total_flight_time := by
  decide

/-- C10 as amended: on any cycle with a disarm transition but no takeoff tracked at the
line-156 check, both persisted 32-bit halves are left unchanged, and the in-memory
`total_flight_time` is also unchanged provided the parameter-refresh branch did not run
that cycle; moreover the persisted halves are written only on a disarm transition with a
tracked takeoff, and the in-memory accumulator changes only then or on a parameter
refresh. -/
theorem disarm_no_takeoff_frame (s : State) (i : Input) :
    (disarmTransition s i → (stateAtDisarmCheck s i).takeoff_time = 0 →
      (Run s i).1.params.flight_time_high = s.params.flight_time_high ∧
      (Run s i).1.params.flight_time_low = s.params.flight_time_low ∧
      ((Run s i).2.paramRefreshed = false →
        (Run s i).1.total_flight_time = s.total_flight_time)) ∧
    (((Run s i).1.params.flight_time_high ≠ s.params.flight_time_high ∨
      (Run s i).1.params.flight_time_low ≠ s.params.flight_time_low) →
      disarmTransition s i ∧ (stateAtDisarmCheck s i).takeoff_time ≠ 0) ∧
    ((Run s i).1.total_flight_time ≠ s.total_flight_time →
      (Run s i).2.paramRefreshed = true ∨
      (disarmTransition s i ∧ (stateAtDisarmCheck s i).takeoff_time ≠ 0)) := by
  have hph : (Run s i).1.params.flight_time_high =
      (flightTimePhase (stateAtDisarmCheck s i) i).params.flight_time_high := rfl
  have hpl : (Run s i).1.params.flight_time_low =
      (flightTimePhase (stateAtDisarmCheck s i) i).params.flight_time_low := rfl
  have htt : (Run s i).1.total_flight_time =
      (flightTimePhase (stateAtDisarmCheck s i) i).total_flight_time := rfl
  have hguard : ∀ hg : (stateAtDisarmCheck s i).takeoff_time ≠ 0 ∧
      (stateAtDisarmCheck s i).armed = false ∧
      (stateAtDisarmCheck s i).previous_armed_state = true,
      disarmTransition s i ∧ (stateAtDisarmCheck s i).takeoff_time ≠ 0 := by
    intro hg
    refine ⟨⟨?_, ?_⟩, hg.1⟩
    · rw [← stateAtDisarmCheck_prev s i]; exact hg.2.2
    · rw [← stateAtDisarmCheck_armed s i]; exact hg.2.1
  refine ⟨?_, ?_, ?_⟩
  · intro hd htk
    have hneg : ¬((stateAtDisarmCheck s i).takeoff_time ≠ 0 ∧
        (stateAtDisarmCheck s i).armed = false ∧
        (stateAtDisarmCheck s i).previous_armed_state = true) :=
      fun hg => hg.1 htk
    rw [flightTimePhase_of_guard_neg _ i hneg] at hph hpl htt
    rw [stateAtDisarmCheck_params] at hph hpl
    rw [stateAtDisarmCheck_total] at htt
    refine ⟨hph, hpl, ?_⟩
    intro hnr
    rw [Run_paramRefreshed] at hnr
    rw [htt]
    unfold totalMid
    rw [if_neg (by rw [hnr]; exact Bool.false_ne_true)]
  · intro hch
    by_cases hg : ((stateAtDisarmCheck s i).takeoff_time ≠ 0 ∧
        (stateAtDisarmCheck s i).armed = false ∧
        (stateAtDisarmCheck s i).previous_armed_state = true)
    · exact hguard hg
    · exfalso
      rw [flightTimePhase_of_guard_neg _ i hg, stateAtDisarmCheck_params] at hph hpl
      rcases hch with h | h
      · exact h hph
      · exact h hpl
  · intro hch
    by_cases hr : refreshCond s i = true
    · left
      rw [Run_paramRefreshed]
      exact hr
    · by_cases hg : ((stateAtDisarmCheck s i).takeoff_time ≠ 0 ∧
          (stateAtDisarmCheck s i).armed = false ∧
          (stateAtDisarmCheck s i).previous_armed_state = true)
      · exact Or.inr (hguard hg)
      · exfalso
        rw [flightTimePhase_of_guard_neg _ i hg, stateAtDisarmCheck_total] at htt
        apply hch
        rw [htt]
        unfold totalMid
        rw [if_neg hr]

/-- Concrete state for the C10 amended witness: armed, no takeoff tracked. -/
def c10bs : State :=
  { land_detected :=
      { timestamp := 7, alt_max := none, freefall := false, landed := false,
        maybe_landed := false, ground_contact := false, in_ground_effect := false }
    armed := true
    previous_armed_state := true
    takeoff_time := 0
    total_flight_time := 123456
    dist_bottom_is_observable := false
    high_hysteresis_active := false
    hysteresis_factor := 1
    params := { flight_time_high := 9, flight_time_low := 8, notify_pending := false } }

/-- Concrete input for the C10 amended witness: plain disarm, no parameter update. -/
def c10bi : Input :=
  { ext_param_publish := false
    armed_update := some false
    dist_bottom_sensor_range := false
    dist_bottom_valid := false
    now := 5000
    freefall := false
    ground_contact := false
    maybe_landed := false
    landed := false
    ground_effect := false
    max_altitude := 0
    should_exit := false }

/-- C10 amended witness: a disarm cycle with no tracked takeoff and no parameter refresh
leaves the accumulator and both stored halves untouched. -/
theorem disarm_no_takeoff_frame_witness :
    (Run c10bs c10bi).1.params.flight_time_high = 9 ∧
    (Run c10bs c10bi).1.params.flight_time_low = 8 ∧
    (Run c10bs c10bi).1.total_flight_time = 123456 := by
  have h := (disarm_no_takeoff_frame c10bs c10bi).1 (by decide) (by decide)
  exact ⟨h.1, h.2.1, h.2.2 (by decide)⟩

end LandDetector
